import Mathlib

/-!
Shallow embedding of the resilience core of the go-otel-agent repository:
the agent lifecycle (Init, GetTracer, GetMeter, health and readiness
probes), the route exclusion matcher with its glob layer (a translation of
the Go standard library path.Match), the exporter health tracker, and the
two scrubbers (span-attribute scrub processor and HTTP scrubber).

Modelling conventions, used throughout:
  - Go strings are modelled as Lean String (equivalently List Char for the
    glob matcher); byte positions and lengths coincide with character
    positions on the ASCII inputs these paths and headers are made of.
  - Go maps are modelled as association lists with an upsert write
    (mapSet) and a first-match read (lookupKV); a Go map never holds two
    entries with the same key, which corresponds to lists whose keys are
    nodup.
  - External collaborators (the OpenTelemetry SDK, the regexp engine, the
    exporters) are modelled as opaque data: a compiled regexp is a pair of
    functions, an SDK provider is a tagged value, and handles minted by a
    provider carry a fresh allocation number so that object identity is
    observable.
-/

/-- Association-list read, modelling a Go map read (first matching key). -/
def lookupKV {α : Type} : List (String × α) → String → Option α
  | [], _ => none
  | (k, v) :: rest, key => if k = key then some v else lookupKV rest key

/-- Association-list upsert, modelling a Go map assignment: replaces the
first entry with the given key, or appends a new entry. -/
def mapSet {α : Type} : List (String × α) → String → α → List (String × α)
  | [], k, v => [(k, v)]
  | (k1, v1) :: rest, k, v =>
    if k1 = k then (k, v) :: rest else (k1, v1) :: mapSet rest k v

/-! Translation of the Go standard library function path.Match, the glob
layer of the route matcher. Strings are lists of characters. The fuel
arguments bound loops that consume at least one pattern character per
iteration, so a fuel of length + 1 is never exhausted. -/

/-- Result of matching one pattern chunk against the front of a name,
mirroring the (rest, ok, err) result triple of the Go matchChunk. -/
inductive ChunkRes where
  | ok (rest : List Char) : ChunkRes
  | nomatch : ChunkRes
  | bad : ChunkRes
deriving Repr, DecidableEq

/-- Translation of getEsc from the Go path package: reads one, possibly
backslash-escaped, character of a character class. Returns none where the
Go code reports ErrBadPattern (empty input, a leading dash or closing
bracket, a trailing backslash, or nothing left after the character). -/
def getEsc : List Char → Option (Char × List Char)
  | [] => none
  | c :: cs =>
    if c = '-' ∨ c = ']' then none
    else if c = '\\' then
      match cs with
      | [] => none
      | d :: ds => if ds = [] then none else some (d, ds)
    else if cs = [] then none else some (c, cs)

/-- Translation of the range-parsing loop of a character class inside the
Go matchChunk: consumes lo or lo-hi ranges until the closing bracket,
recording whether r fell inside some range. Returns none on a malformed
pattern. Each iteration consumes at least one chunk character, so fuel
chunk.length + 1 is never exhausted. -/
def parseRanges (r : Char) : Nat → List Char → Bool → Nat → Option (List Char × Bool)
  | 0, _, _, _ => none
  | fuel + 1, chunk, matched, nrange =>
    if chunk.headD ' ' = ']' ∧ nrange > 0 then
      some (chunk.tail, matched)
    else
      match getEsc chunk with
      | none => none
      | some (lo, chunk1) =>
        if chunk1.headD ' ' = '-' then
          match getEsc chunk1.tail with
          | none => none
          | some (hi, chunk2) =>
            parseRanges r fuel chunk2 (matched || (decide (lo ≤ r) && decide (r ≤ hi))) (nrange + 1)
        else
          parseRanges r fuel chunk1 (matched || (decide (lo ≤ r) && decide (r ≤ lo))) (nrange + 1)

/-- Translation of the Go matchChunk: matches a chunk made of literals,
question marks, escapes and character classes against the front of s,
carrying the failed flag exactly as the Go code does (parsing continues
after a failure so that malformed patterns are still reported as bad).
Each step consumes at least one chunk character, so fuel chunk.length + 1
is never exhausted. -/
def matchChunk : Nat → List Char → List Char → Bool → ChunkRes
  | 0, _, _, _ => .bad
  | _ + 1, [], s, failed => if failed then .nomatch else .ok s
  | fuel + 1, c :: chunk, s, failed0 =>
    let failed := failed0 || s.isEmpty
    if c = '[' then
      let r := if failed then '\x00' else s.headD '\x00'
      let s1 := if failed then s else s.tail
      let negated := chunk.headD ' ' = '^'
      let chunk1 := if negated then chunk.tail else chunk
      match parseRanges r (chunk1.length + 1) chunk1 false 0 with
      | none => .bad
      | some (rest, matched) =>
        matchChunk fuel rest s1 (failed || (matched == negated))
    else if c = '?' then
      if failed then matchChunk fuel chunk s failed
      else matchChunk fuel chunk s.tail (s.headD ' ' == '/')
    else if c = '\\' then
      match chunk with
      | [] => .bad
      | d :: rest =>
        if failed then matchChunk fuel rest s failed
        else matchChunk fuel rest s.tail (!(d == s.headD ' '))
    else
      if failed then matchChunk fuel chunk s failed
      else matchChunk fuel chunk s.tail (!(c == s.headD ' '))

/-- Translation of the chunk scanner of the Go Match: splits the pattern
into a leading star flag, one chunk, and the rest of the pattern; a star
inside a character class does not end the chunk, and a backslash keeps the
following character inside the chunk. -/
def scanBody : List Char → Bool → List Char × List Char
  | [], _ => ([], [])
  | '\\' :: cs, inrange =>
    (match cs with
     | [] => (['\\'], [])
     | d :: ds =>
       let p := scanBody ds inrange
       ('\\' :: d :: p.1, p.2))
  | '[' :: cs, _ =>
    let p := scanBody cs true
    ('[' :: p.1, p.2)
  | ']' :: cs, _ =>
    let p := scanBody cs false
    (']' :: p.1, p.2)
  | '*' :: cs, inrange =>
    if inrange then
      let p := scanBody cs inrange
      ('*' :: p.1, p.2)
    else ([], '*' :: cs)
  | c :: cs, inrange =>
    let p := scanBody cs inrange
    (c :: p.1, p.2)

/-- Translation of the Go scanChunk: records whether the pattern starts
with one or more stars, drops them, and scans one chunk. -/
def scanChunk (pattern : List Char) : Bool × List Char × List Char :=
  let star := pattern.headD ' ' == '*'
  let p := pattern.dropWhile (fun c => c == '*')
  let body := scanBody p false
  (star, body.1, body.2)

/-- Translation of the star-skip loop of the Go Match: tries the chunk at
each later position of the name without crossing a slash. Returns the rest
of the name on success, and none both when the loop exhausts and when the
pattern is malformed; in the Go code both ways out produce an overall
false result. -/
def starLoop (chunk : List Char) (lastChunk : Bool) : List Char → Option (List Char)
  | [] => none
  | c :: n1 =>
    if c == '/' then none
    else
      match matchChunk (chunk.length + 1) chunk n1 false with
      | .ok t => if lastChunk && !t.isEmpty then starLoop chunk lastChunk n1 else some t
      | .bad => none
      | .nomatch => starLoop chunk lastChunk n1

/-- Translation of the outer loop of the Go path.Match. Every iteration
consumes at least one pattern character (a leading star or a nonempty
chunk), so fuel pattern.length + 1 is never exhausted. A trailing bare
star matches any slash-free remainder of the name. -/
def goMatch : Nat → List Char → List Char → Bool
  | 0, _, _ => false
  | _ + 1, [], name => name.isEmpty
  | fuel + 1, pattern, name =>
    let sc := scanChunk pattern
    let star := sc.1
    let chunk := sc.2.1
    let rest := sc.2.2
    if star && chunk.isEmpty then !(name.contains '/')
    else
      match matchChunk (chunk.length + 1) chunk name false with
      | .ok t =>
        if t.isEmpty || !rest.isEmpty then goMatch fuel rest t
        else if star then
          match starLoop chunk rest.isEmpty name with
          | some t1 => goMatch fuel rest t1
          | none => false
        else false
      | .bad => false
      | .nomatch =>
        if star then
          match starLoop chunk rest.isEmpty name with
          | some t1 => goMatch fuel rest t1
          | none => false
        else false

/-- path.Match(pattern, name) with the error dropped, exactly as the route
matcher calls it (matched, _ := path.Match(pattern, requestPath)). -/
def pathMatch (pattern name : String) : Bool :=
  goMatch (pattern.data.length + 1) pattern.data name.data

/-! The route exclusion matcher (internal/matcher). -/

/-- RouteExclusionConfig from the matcher package. -/
structure RouteExclusionConfig where
  exactPaths : List String
  prefixPaths : List String
  patterns : List String
deriving Repr, DecidableEq

/-- RouteMatcher: the Go set map of exact paths is modelled by its list of
keys, read only through membership. -/
structure RouteMatcher where
  exactPaths : List String
  prefixPaths : List String
  patterns : List String
deriving Repr, DecidableEq

/-- NewRouteMatcher: every exact path is inserted into the set, empty
strings included; empty strings are filtered out of the prefix and the
pattern lists. -/
def newRouteMatcher (cfg : RouteExclusionConfig) : RouteMatcher :=
  { exactPaths := cfg.exactPaths
    prefixPaths := cfg.prefixPaths.filter (fun p => p != "")
    patterns := cfg.patterns.filter (fun p => p != "") }

/-- ShouldExclude with the nil receiver modelled as none: exact match,
then prefix scan with plain starts-with semantics, then glob scan. -/
def shouldExclude : Option RouteMatcher → String → Bool
  | none, _ => false
  | some m, requestPath =>
    if m.exactPaths.contains requestPath then true
    else if m.prefixPaths.any (fun pre => pre.isPrefixOf requestPath) then true
    else if m.patterns.any (fun pat => pathMatch pat requestPath) then true
    else false

/-- IsEmpty from the matcher package. -/
def routeMatcherIsEmpty : Option RouteMatcher → Bool
  | none => true
  | some m => m.exactPaths.isEmpty && m.prefixPaths.isEmpty && m.patterns.isEmpty

/-! The exporter health tracker (provider/exporter_health.go). The
last-success and last-failure timestamps are wall-clock data that no claim
touches and are omitted from the state. -/

/-- ExporterStatus: the tri-state health enum. -/
inductive ExporterStatus where
  | healthy : ExporterStatus
  | degraded : ExporterStatus
  | unhealthy : ExporterStatus
deriving Repr, DecidableEq

/-- The integer value of an ExporterStatus constant in the Go source
(iota order healthy = 0, degraded = 1, unhealthy = 2); the Go code
compares statuses as integers. -/
def ExporterStatus.sev : ExporterStatus → Nat
  | .healthy => 0
  | .degraded => 1
  | .unhealthy => 2

/-- ExporterHealth: per-signal consecutive-failure counters and the two
thresholds. -/
structure ExporterHealth where
  consecutiveFailures : List (String × Nat)
  degradedThreshold : Nat
  unhealthyThreshold : Nat
deriving Repr, DecidableEq

/-- NewExporterHealth: empty counters, thresholds 3 and 10. -/
def newExporterHealth : ExporterHealth :=
  { consecutiveFailures := [], degradedThreshold := 3, unhealthyThreshold := 10 }

/-- A Go map read of a counter defaults to zero for an absent key. -/
def ExporterHealth.count (h : ExporterHealth) (signal : String) : Nat :=
  (lookupKV h.consecutiveFailures signal).getD 0

/-- RecordSuccess: stores a zero counter for the signal. -/
def ExporterHealth.recordSuccess (h : ExporterHealth) (signal : String) : ExporterHealth :=
  { h with consecutiveFailures := mapSet h.consecutiveFailures signal 0 }

/-- RecordFailure: increments the counter for the signal. -/
def ExporterHealth.recordFailure (h : ExporterHealth) (signal : String) : ExporterHealth :=
  { h with consecutiveFailures := mapSet h.consecutiveFailures signal (h.count signal + 1) }

/-- Status: maps the counter through the two thresholds. -/
def ExporterHealth.status (h : ExporterHealth) (signal : String) : ExporterStatus :=
  let failures := h.count signal
  if failures ≥ h.unhealthyThreshold then .unhealthy
  else if failures ≥ h.degradedThreshold then .degraded
  else .healthy

/-- The status computed from a failure counter by both Status and the
loop body of OverallStatus: the same two-threshold chain, with healthy as
the zero value. -/
def ExporterHealth.entryStatus (h : ExporterHealth) (failures : Nat) : ExporterStatus :=
  if failures ≥ h.unhealthyThreshold then .unhealthy
  else if failures ≥ h.degradedThreshold then .degraded
  else .healthy

/-- The loop body of OverallStatus: keep the worse of the running worst
and the status of one entry, comparing statuses by their integer value as
the Go code does. -/
def ExporterHealth.worse (h : ExporterHealth) (worst : ExporterStatus) (e : String × Nat) :
    ExporterStatus :=
  let status := h.entryStatus e.2
  if status.sev > worst.sev then status else worst

/-- OverallStatus: folds the worst inline status over all tracked
signals, starting from the zero value healthy. -/
def ExporterHealth.overallStatus (h : ExporterHealth) : ExporterStatus :=
  h.consecutiveFailures.foldl h.worse .healthy

/-- SignalStatuses: the status of each tracked signal. -/
def ExporterHealth.signalStatuses (h : ExporterHealth) : List (String × ExporterStatus) :=
  h.consecutiveFailures.map (fun e => (e.1, h.status e.1))

/-! The scrubbing pipeline (provider/scrub.go and the HTTP scrubber).
Span attributes are modelled as association lists of string keys to the
string view of their values; SetAttributes on a span is an upsert per
key. A compiled regular expression from the external regexp package is
opaque data: the two operations the scrubbers call on it. -/

/-- Model of the Go strings.ToLower the scrubbers call: characterwise
lowering (which agrees with Go on the ASCII header names and attribute
keys this code handles). -/
def strToLower (s : String) : String := ⟨s.data.map Char.toLower⟩

/-- Abstract compiled regular expression: MatchString and
ReplaceAllString, the only operations the scrubbers use. -/
structure Regexp where
  matchString : String → Bool
  replaceAllString : String → String → String

/-- ScrubConfig (config package): the fields the scrubbers read. -/
structure ScrubConfig where
  enabled : Bool
  sensitiveKeys : List String
  sensitivePatterns : List String
  redactedValue : String
  dbStatementMaxLength : Int
deriving Repr

/-- ScrubProcessor: the compiled state of the span-attribute scrubber.
The sensitive-key set is modelled by its key list, and pattern
compilation by an external compile oracle whose failures are dropped,
as in init. -/
structure ScrubProcessor where
  config : ScrubConfig
  sensitiveKeys : List String
  compiledPatterns : List Regexp

/-- NewScrubProcessor plus init: copies the keys and compiles the
patterns, silently dropping the ones the external engine rejects. -/
def newScrubProcessor (cfg : ScrubConfig) (compile : String → Option Regexp) : ScrubProcessor :=
  { config := cfg
    sensitiveKeys := cfg.sensitiveKeys
    compiledPatterns := cfg.sensitivePatterns.filterMap compile }

/-- isSensitive: exact key membership, then pattern match on the
lowercased key. -/
def ScrubProcessor.isSensitive (sp : ScrubProcessor) (key : String) : Bool :=
  sp.sensitiveKeys.contains key
    || sp.compiledPatterns.any (fun re => re.matchString (strToLower key))

/-- SetAttributes on a span: upsert each given attribute by key. -/
def setAttrs (attrs updates : List (String × String)) : List (String × String) :=
  updates.foldl (fun a kv => mapSet a kv.1 kv.2) attrs

/-- truncateDBStatements: truncates the db.statement and db.query.text
attributes that exceed the configured maximum, appending an ellipsis. -/
def ScrubProcessor.truncateDBStatements (sp : ScrubProcessor)
    (attrs : List (String × String)) : List (String × String) :=
  let dbKeys := ["db.statement", "db.query.text"]
  let truncated := attrs.foldl
    (fun acc kv =>
      dbKeys.foldl
        (fun acc2 dbKey =>
          if kv.1 = dbKey ∧ (kv.2.length : Int) > sp.config.dbStatementMaxLength then
            acc2 ++ [(kv.1, kv.2.take sp.config.dbStatementMaxLength.toNat ++ "...")]
          else acc2)
        acc)
    []
  if truncated.isEmpty then attrs else setAttrs attrs truncated

/-- OnStart of the scrub processor: no effect when scrubbing is
disabled; otherwise redacts the sensitive attributes, then truncates db
statements only when the configured maximum length is positive. -/
def ScrubProcessor.onStart (sp : ScrubProcessor)
    (attrs : List (String × String)) : List (String × String) :=
  if !sp.config.enabled then attrs
  else
    let redacted := if sp.config.redactedValue = "" then "[REDACTED]" else sp.config.redactedValue
    let scrubbed := attrs.foldl
      (fun acc kv => if sp.isSensitive kv.1 then acc ++ [(kv.1, redacted)] else acc) []
    let attrs1 := if scrubbed.isEmpty then attrs else setAttrs attrs scrubbed
    if sp.config.dbStatementMaxLength > 0 then sp.truncateDBStatements attrs1 else attrs1

/-- HTTPConfig (config package): the fields the HTTP scrubber reads. -/
structure HTTPConfig where
  sensitiveHeaders : List String
  bodyAllowedContentTypes : List String
deriving Repr

/-- HTTPScrubber: the compiled state built by init. -/
structure HTTPScrubber where
  httpCfg : HTTPConfig
  scrubCfg : ScrubConfig
  sensitiveHeaderSet : List String
  compiledPatterns : List Regexp
  allowedContentSet : List String

/-- NewHTTPScrubber plus init: lowercases the sensitive header names and
the allowed content types, and compiles the sensitive patterns only when
scrubbing is enabled, dropping the ones the engine rejects. -/
def newHTTPScrubber (httpCfg : HTTPConfig) (scrubCfg : ScrubConfig)
    (compile : String → Option Regexp) : HTTPScrubber :=
  { httpCfg := httpCfg
    scrubCfg := scrubCfg
    sensitiveHeaderSet := httpCfg.sensitiveHeaders.map strToLower
    allowedContentSet := httpCfg.bodyAllowedContentTypes.map (fun ct => strToLower ct.trim)
    compiledPatterns :=
      if scrubCfg.enabled then scrubCfg.sensitivePatterns.filterMap compile else [] }

/-- The redactedValue helper: the configured literal, defaulting to the
bracketed REDACTED marker. -/
def HTTPScrubber.redactedValue (s : HTTPScrubber) : String :=
  if s.scrubCfg.redactedValue ≠ "" then s.scrubCfg.redactedValue else "[REDACTED]"

/-- buildAllowedSet: the lowercased allow-list, empty when no allow-list
is supplied. -/
def buildAllowedSet (allowed : List String) : List String :=
  if allowed.isEmpty then [] else allowed.map strToLower

/-- The loop body of ScrubHeaders over the header entries, carrying the
result map being built. Go iterates the header map in an unspecified
order; the entry list order stands in for it. -/
def scrubHeadersGo (s : HTTPScrubber) (allowedSet : List String) :
    List (String × List String) → List (String × String) → List (String × String)
  | [], result => result
  | (name, values) :: rest, result =>
    let lower := (strToLower name)
    if !allowedSet.isEmpty ∧ !allowedSet.contains lower then
      scrubHeadersGo s allowedSet rest result
    else
      let value := String.intercalate ", " values
      let value := if s.sensitiveHeaderSet.contains lower then s.redactedValue else value
      scrubHeadersGo s allowedSet rest (mapSet result lower value)

/-- ScrubHeaders: filters by the allow-list, joins multi-valued headers
with a comma and space, and unconditionally redacts sensitive headers. -/
def HTTPScrubber.scrubHeaders (s : HTTPScrubber) (headers : List (String × List String))
    (allowed : List String) : List (String × String) :=
  scrubHeadersGo s (buildAllowedSet allowed) headers []

/-- The truncation step of ScrubBody. -/
def truncateBody (body : String) (maxSize : Int) : String :=
  if maxSize > 0 ∧ (body.length : Int) > maxSize then
    body.take maxSize.toNat ++ "...[truncated]"
  else body

/-- The pattern-redaction step of ScrubBody, applied only when scrubbing
is enabled. -/
def HTTPScrubber.applyBodyPatterns (s : HTTPScrubber) (body : String) : String :=
  if s.scrubCfg.enabled then
    s.compiledPatterns.foldl (fun b re => re.replaceAllString b s.redactedValue) body
  else body

/-- ScrubBody: empty in, empty out; otherwise truncate first, then
redact patterns when scrubbing is enabled. -/
def HTTPScrubber.scrubBody (s : HTTPScrubber) (body : String) (maxSize : Int) : String :=
  if body = "" then ""
  else s.applyBodyPatterns (truncateBody body maxSize)

/-! The agent lifecycle. The OpenTelemetry SDK is external: a provider is
a tagged value minted during Init, and a tracer or meter handle minted by
a provider carries a fresh allocation number so that handle identity is
observable; the no-op handles are empty structs in Go and are therefore
modelled as values determined by the name alone. Go interface values may
be nil, so the accessors return an Option of a handle and never-nil is the
statement that the result is always some. Fields of the Go Agent that no
claim touches (logger, instrumentor, collector) are omitted, as are the
process-global provider registrations, which live outside the Agent. -/

/-- A constructed SDK provider (trace, metric or log), identified by its
allocation number. -/
structure SDKProvider where
  id : Nat
deriving Repr, DecidableEq

/-- A tracer handle: either the no-op tracer for a name (an empty struct
in Go, equal for equal names) or a handle minted by an SDK provider. -/
inductive Tracer where
  | noop (name : String) : Tracer
  | sdk (pid : Nat) (uid : Nat) (name : String) : Tracer
deriving Repr, DecidableEq

/-- A meter handle, mirroring Tracer. -/
inductive Meter where
  | noop (name : String) : Meter
  | sdk (pid : Nat) (uid : Nat) (name : String) : Meter
deriving Repr, DecidableEq

/-- noopTracer: builds a no-op tracer, always safe to use. -/
def noopTracer (name : String) : Tracer := .noop name

/-- noopMeter: builds a no-op meter, always safe to use. -/
def noopMeter (name : String) : Meter := .noop name

/-- The fields of the Config the claimed behaviour reads: the global
enable flag, the service name, the per-signal enable flags and the route
exclusion lists. -/
structure Config where
  enabled : Bool
  serviceName : String
  tracesEnabled : Bool
  metricsEnabled : Bool
  logsEnabled : Bool
  routeExclusion : RouteExclusionConfig
deriving Repr, DecidableEq

/-- The Agent state: configuration, the three optional providers, the two
handle caches, the route matcher and health tracker built at
construction, the lifecycle flags, and the allocation counter that models
object identity of minted handles and providers. -/
structure Agent where
  config : Config
  tracerProvider : Option SDKProvider
  meterProvider : Option SDKProvider
  loggerProvider : Option SDKProvider
  tracers : List (String × Tracer)
  meters : List (String × Meter)
  routeMatcher : RouteMatcher
  health : ExporterHealth
  initialized : Bool
  running : Bool
  nextId : Nat
deriving Repr, DecidableEq

/-- NewAgent: pure construction from the merged configuration; builds the
route matcher and the health tracker, no providers, no caches, not
initialized, not running. -/
def newAgent (cfg : Config) : Agent :=
  { config := cfg
    tracerProvider := none
    meterProvider := none
    loggerProvider := none
    tracers := []
    meters := []
    routeMatcher := newRouteMatcher cfg.routeExclusion
    health := newExporterHealth
    initialized := false
    running := false
    nextId := 0 }

/-- GetTracer: the no-op tracer when no provider is installed; otherwise
the cached handle for the name, minting and storing a fresh one on a
cache miss. -/
def Agent.getTracer (a : Agent) (name : String) : Option Tracer × Agent :=
  match a.tracerProvider with
  | none => (some (noopTracer name), a)
  | some p =>
    match lookupKV a.tracers name with
    | some cached => (some cached, a)
    | none =>
      let tracer := Tracer.sdk p.id a.nextId name
      (some tracer, { a with tracers := mapSet a.tracers name tracer, nextId := a.nextId + 1 })

/-- GetMeter: the no-op meter when no provider is installed; otherwise
the cached handle for the name, minting and storing a fresh one on a
cache miss. -/
def Agent.getMeter (a : Agent) (name : String) : Option Meter × Agent :=
  match a.meterProvider with
  | none => (some (noopMeter name), a)
  | some p =>
    match lookupKV a.meters name with
    | some cached => (some cached, a)
    | none =>
      let meter := Meter.sdk p.id a.nextId name
      (some meter, { a with meters := mapSet a.meters name meter, nextId := a.nextId + 1 })

/-- The named errors and wrapped construction failures Init can return. -/
inductive InitErr where
  | alreadyInitialized : InitErr
  | missingServiceName : InitErr
  | resourceFailed : InitErr
  | traceProviderFailed : InitErr
  | metricProviderFailed : InitErr
  | logProviderFailed : InitErr
  | collectorsFailed : InitErr
deriving Repr, DecidableEq

/-- Outcomes of the external constructions Init performs (resource
building, the three exporter-plus-provider constructions, the collector
constructions); Init is deterministic given these. -/
structure InitEnv where
  resourceOk : Bool
  traceOk : Bool
  metricOk : Bool
  logOk : Bool
  collectorsOk : Bool
deriving Repr, DecidableEq

/-- An environment in which every external construction succeeds. -/
def envAllOk : InitEnv :=
  { resourceOk := true, traceOk := true, metricOk := true, logOk := true, collectorsOk := true }

/-- initCollectors fetches the four collector meters before constructing
the collectors; only the meter-cache effect is visible on the modelled
state. -/
def Agent.collectorMeters (a : Agent) : Agent :=
  ((((a.getMeter "runtime").2.getMeter "business").2.getMeter "performance").2.getMeter "system").2

/-- The guarded trace-provider step of Init: when traces are enabled,
either the external construction fails and the state is returned
untouched, or a fresh provider is installed. -/
def Agent.installTraceProvider (env : InitEnv) (a : Agent) : Option InitErr × Agent :=
  if a.config.tracesEnabled then
    if !env.traceOk then (some .traceProviderFailed, a)
    else (none, { a with tracerProvider := some ⟨a.nextId⟩, nextId := a.nextId + 1 })
  else (none, a)

/-- The guarded metric-provider step of Init. -/
def Agent.installMetricProvider (env : InitEnv) (a : Agent) : Option InitErr × Agent :=
  if a.config.metricsEnabled then
    if !env.metricOk then (some .metricProviderFailed, a)
    else (none, { a with meterProvider := some ⟨a.nextId⟩, nextId := a.nextId + 1 })
  else (none, a)

/-- The guarded log-provider step of Init. -/
def Agent.installLogProvider (env : InitEnv) (a : Agent) : Option InitErr × Agent :=
  if a.config.logsEnabled then
    if !env.logOk then (some .logProviderFailed, a)
    else (none, { a with loggerProvider := some ⟨a.nextId⟩, nextId := a.nextId + 1 })
  else (none, a)

/-- The collector step of Init, run when metrics are enabled: the four
collector meters are fetched first, then the collector constructions run
and may fail with the meter cache already populated. -/
def Agent.startCollectors (env : InitEnv) (a : Agent) : Option InitErr × Agent :=
  if a.config.metricsEnabled then
    let a4 := a.collectorMeters
    if !env.collectorsOk then (some .collectorsFailed, a4)
    else (none, a4)
  else (none, a)

/-- Init. Double initialization and a missing service name fail before
any mutation; a disabled configuration marks the agent initialized but
not running and succeeds; otherwise the enabled providers are constructed
in order traces, metrics, logs, a construction failure returns with the
providers built so far kept installed, the collector meters are fetched
when metrics are enabled, and on success the agent is initialized and
running. -/
def Agent.init (env : InitEnv) (a : Agent) : Option InitErr × Agent :=
  if a.initialized then (some .alreadyInitialized, a)
  else if !a.config.enabled then (none, { a with initialized := true })
  else if a.config.serviceName = "" then (some .missingServiceName, a)
  else if !env.resourceOk then (some .resourceFailed, a)
  else
    match a.installTraceProvider env with
    | (some e, a1) => (some e, a1)
    | (none, a1) =>
      match a1.installMetricProvider env with
      | (some e, a2) => (some e, a2)
      | (none, a2) =>
        match a2.installLogProvider env with
        | (some e, a3) => (some e, a3)
        | (none, a3) =>
          match a3.startCollectors env with
          | (some e, a4) => (some e, a4)
          | (none, a4) => (none, { a4 with initialized := true, running := true })

/-- The health snapshot (health.go). -/
structure HealthStatus where
  status : String
  signals : List (String × ExporterStatus)
  running : Bool
  enabled : Bool
deriving Repr, DecidableEq

/-- HealthCheck: a disabled agent reports ok, not running, not enabled;
otherwise the overall exporter status is rendered and the signal
snapshot, running flag and enabled flag are attached. -/
def Agent.healthCheck (a : Agent) : HealthStatus :=
  if !a.config.enabled then
    { status := "ok", signals := [], running := false, enabled := false }
  else
    { status :=
        match a.health.overallStatus with
        | .healthy => "ok"
        | .degraded => "degraded"
        | .unhealthy => "unhealthy"
      signals := a.health.signalStatuses
      running := a.running
      enabled := a.config.enabled }

/-- ReadinessCheck: initialized and running. -/
def Agent.readinessCheck (a : Agent) : Bool :=
  a.initialized && a.running

/-! Concrete sample values used by the witnesses below. -/

/-- A configuration with everything enabled. -/
def sampleConfig : Config :=
  { enabled := true
    serviceName := "svc"
    tracesEnabled := true
    metricsEnabled := true
    logsEnabled := true
    routeExclusion := ⟨[], [], []⟩ }

/-- The same configuration with telemetry disabled. -/
def sampleDisabledConfig : Config := { sampleConfig with enabled := false }

/-- A freshly constructed agent. -/
def sampleAgent : Agent := newAgent sampleConfig

/-- An agent with both providers installed, as after a successful Init. -/
def readyAgent : Agent :=
  { sampleAgent with tracerProvider := some ⟨0⟩, meterProvider := some ⟨1⟩, nextId := 2 }

/-- The scrub configuration of the db-statement sentinel case: scrubbing
enabled, maximum length the sentinel minus one. -/
def negOneScrubConfig : ScrubConfig :=
  { enabled := true
    sensitiveKeys := []
    sensitivePatterns := []
    redactedValue := ""
    dbStatementMaxLength := -1 }

/-- The scrub processor compiled from the sentinel configuration. -/
def negOneProcessor : ScrubProcessor := newScrubProcessor negOneScrubConfig (fun _ => none)

/-- A scrub configuration with scrubbing disabled. -/
def scrubOffConfig : ScrubConfig :=
  { enabled := false
    sensitiveKeys := []
    sensitivePatterns := []
    redactedValue := ""
    dbStatementMaxLength := 0 }

/-- An HTTP scrubber with Authorization sensitive and scrubbing disabled. -/
def sampleHTTPScrubber : HTTPScrubber :=
  newHTTPScrubber { sensitiveHeaders := ["Authorization"], bodyAllowedContentTypes := [] }
    scrubOffConfig (fun _ => none)

/-! Helper lemmas about the association-list map model. -/

theorem lookupKV_mapSet_self {α : Type} (l : List (String × α)) (k : String) (v : α) :
    lookupKV (mapSet l k v) k = some v := by
  induction l with
  | nil => simp [mapSet, lookupKV]
  | cons hd tl ih =>
    by_cases h : hd.1 = k
    · simp [mapSet, lookupKV, h]
    · simpa [mapSet, lookupKV, h] using ih

theorem lookupKV_mapSet_ne {α : Type} (l : List (String × α)) (k1 k : String) (v : α)
    (h : k1 ≠ k) : lookupKV (mapSet l k1 v) k = lookupKV l k := by
  induction l with
  | nil => simp [mapSet, lookupKV, h]
  | cons hd tl ih =>
    by_cases h1 : hd.1 = k1
    · simp [mapSet, lookupKV, h1, h]
    · by_cases h2 : hd.1 = k
      · simp [mapSet, lookupKV, h1, h2, Ne.symm h]
      · simp [mapSet, lookupKV, h1, h2, ih]

theorem lookupKV_mem {α : Type} {l : List (String × α)} {k : String} {v : α}
    (h : lookupKV l k = some v) : (k, v) ∈ l := by
  induction l with
  | nil => simp [lookupKV] at h
  | cons hd tl ih =>
    obtain ⟨a, b⟩ := hd
    by_cases h1 : a = k
    · subst h1
      simp [lookupKV] at h
      subst h
      exact List.mem_cons_self _ _
    · simp [lookupKV, h1] at h
      exact List.mem_cons_of_mem _ (ih h)

theorem lookupKV_of_mem_nodup {α : Type} {l : List (String × α)}
    (hnd : (l.map Prod.fst).Nodup) {k : String} {v : α} (h : (k, v) ∈ l) :
    lookupKV l k = some v := by
  induction l with
  | nil => simp at h
  | cons hd tl ih =>
    rcases List.mem_cons.mp h with heq | hmem
    · subst heq
      simp [lookupKV]
    · have hne : hd.1 ≠ k := by
        intro he
        have : hd.1 ∈ tl.map Prod.fst := by
          rw [he]
          exact List.mem_map.mpr ⟨(k, v), hmem, rfl⟩
        exact (List.nodup_cons.mp (by simpa using hnd)).1 this
      simpa [lookupKV, hne] using ih (List.nodup_cons.mp (by simpa using hnd)).2 hmem

/-- C2: a second Init on an already-initialized Agent returns the
distinct named error ErrAlreadyInitialized and leaves the whole Agent
state (providers, caches, flags) exactly as it was: the call returns the
unchanged state, before any mutation. -/
theorem init_alreadyInitialized_no_mutation (env : InitEnv) (a : Agent)
    (h : a.initialized = true) :
    a.init env = (some InitErr.alreadyInitialized, a) := by
  simp [Agent.init, h]

/-- Witness for C2 at a concrete initialized agent. -/
theorem init_alreadyInitialized_no_mutation_witness :
    ({ sampleAgent with initialized := true } : Agent).initialized = true
    ∧ ({ sampleAgent with initialized := true } : Agent).init envAllOk
        = (some InitErr.alreadyInitialized, { sampleAgent with initialized := true }) :=
  ⟨rfl, init_alreadyInitialized_no_mutation envAllOk { sampleAgent with initialized := true } rfl⟩

/-- C9 is refuted by the code: after a successful Init on a disabled
configuration the health status is ok but the readiness boolean is
false, because the disabled branch of Init sets initialized without
setting running. This closed counterexample evaluates the disabled Init
on a fresh agent: Init succeeds yet ReadinessCheck is false, where the
claim asserts it is true. -/
theorem disabled_init_readiness_counterexample :
    ((newAgent sampleDisabledConfig).init envAllOk).1 = none
    ∧ ((newAgent sampleDisabledConfig).init envAllOk).2.readinessCheck = false := by
  constructor
  · rfl
  · rfl

/-- C9 (amended): after Init returns success on an Agent whose
configuration disables telemetry, HealthCheck reports the ok status of
the disabled state immediately, but the readiness boolean
(initialized and running) is false, because the disabled branch sets
initialized and leaves running false. -/
theorem disabled_init_ok_but_not_ready (cfg : Config) (env : InitEnv)
    (hdis : cfg.enabled = false) :
    (newAgent cfg).init env = (none, { newAgent cfg with initialized := true })
    ∧ ((newAgent cfg).init env).2.healthCheck
        = { status := "ok", signals := [], running := false, enabled := false }
    ∧ ((newAgent cfg).init env).2.readinessCheck = false := by
  refine ⟨?_, ?_, ?_⟩ <;>
    simp [Agent.init, Agent.healthCheck, Agent.readinessCheck, newAgent, hdis]

/-- Witness for the amended C9 at the concrete disabled configuration. -/
theorem disabled_init_ok_but_not_ready_witness :
    sampleDisabledConfig.enabled = false
    ∧ (((newAgent sampleDisabledConfig).init envAllOk).2.healthCheck
        = { status := "ok", signals := [], running := false, enabled := false }
       ∧ ((newAgent sampleDisabledConfig).init envAllOk).2.readinessCheck = false) :=
  ⟨rfl, (disabled_init_ok_but_not_ready sampleDisabledConfig envAllOk rfl).2⟩

/-- C10: while the corresponding provider is absent, GetTracer and
GetMeter return the freshly built no-op handle for the name and return
the Agent state unchanged, caches included; no entry is ever stored (the
cache is not even consulted: the no-op handle is returned also when the
cache holds an entry for the name). A fresh agent and the agent left by
a disabled Init are such states. -/
theorem getTracer_getMeter_noop_frame (a : Agent) (name : String) :
    (a.tracerProvider = none → a.getTracer name = (some (noopTracer name), a))
    ∧ (a.meterProvider = none → a.getMeter name = (some (noopMeter name), a))
    ∧ (∀ cfg : Config,
        (newAgent cfg).tracerProvider = none ∧ (newAgent cfg).meterProvider = none)
    ∧ (∀ (cfg : Config) (env : InitEnv), cfg.enabled = false →
        ((newAgent cfg).init env).2.tracerProvider = none
        ∧ ((newAgent cfg).init env).2.meterProvider = none) := by
  refine ⟨?_, ?_, ?_, ?_⟩
  · intro h
    simp [Agent.getTracer, h]
  · intro h
    simp [Agent.getMeter, h]
  · intro cfg
    exact ⟨rfl, rfl⟩
  · intro cfg env hdis
    constructor <;> simp [Agent.init, newAgent, hdis]

/-- Witness for C10 at a concrete fresh agent. -/
theorem getTracer_getMeter_noop_frame_witness :
    sampleAgent.tracerProvider = none
    ∧ sampleAgent.getTracer "db" = (some (noopTracer "db"), sampleAgent) :=
  ⟨rfl, (getTracer_getMeter_noop_frame sampleAgent "db").1 rfl⟩

/-- C8 is refuted by the code: NewRouteMatcher filters empty strings out
of the prefix and pattern lists but inserts exact-path entries
unfiltered, so a configuration whose exact-path list holds the empty
string excludes the empty path while the configuration with the empty
string removed does not. -/
theorem newRouteMatcher_empty_exact_counterexample :
    shouldExclude (some (newRouteMatcher ⟨[""], [], []⟩)) ""
      ≠ shouldExclude (some (newRouteMatcher ⟨[], [], []⟩)) "" := by
  decide

/-- C8 (amended): construction filters empty strings out of the prefix
and pattern layers only, so a matcher built from any configuration
behaves identically, on every input, to one built from the same
configuration with empty strings removed from the prefix and pattern
lists; exact-path entries, empty string included, are kept. -/
theorem newRouteMatcher_filters_prefix_pattern (cfg : RouteExclusionConfig) (p : String) :
    shouldExclude (some (newRouteMatcher cfg)) p
      = shouldExclude (some (newRouteMatcher
          { exactPaths := cfg.exactPaths
            prefixPaths := cfg.prefixPaths.filter (fun q => q != "")
            patterns := cfg.patterns.filter (fun q => q != "") })) p := by
  have h : newRouteMatcher cfg = newRouteMatcher
      { exactPaths := cfg.exactPaths
        prefixPaths := cfg.prefixPaths.filter (fun q => q != "")
        patterns := cfg.patterns.filter (fun q => q != "") } := by
    simp [newRouteMatcher, List.filter_filter]
  rw [h]

/-- C3: ShouldExclude is true exactly when the path is in the exact set,
or some configured prefix string is a plain starts-with match, or some
configured glob pattern matches under the path.Match semantics; a nil
matcher reference and a matcher built from the empty configuration
exclude nothing. -/
theorem shouldExclude_iff (m : RouteMatcher) (p : String) :
    (shouldExclude (some m) p = true ↔
      p ∈ m.exactPaths
      ∨ (∃ pre ∈ m.prefixPaths, pre.isPrefixOf p = true)
      ∨ (∃ pat ∈ m.patterns, pathMatch pat p = true))
    ∧ shouldExclude none p = false
    ∧ shouldExclude (some (newRouteMatcher ⟨[], [], []⟩)) p = false := by
  refine ⟨?_, rfl, rfl⟩
  simp only [shouldExclude]
  split_ifs with h1 h2 h3 <;>
    simp_all [List.any_eq_true, List.contains_iff_exists_mem_beq, beq_iff_eq]

/-! Frame lemmas for the accessors and the Init steps, used to trace the
provider fields through a successful Init. -/

theorem getMeter_frame (a : Agent) (n : String) :
    ((a.getMeter n).2).tracerProvider = a.tracerProvider
    ∧ ((a.getMeter n).2).meterProvider = a.meterProvider
    ∧ ((a.getMeter n).2).config = a.config := by
  cases hm : a.meterProvider with
  | none => simp [Agent.getMeter, hm]
  | some p =>
    cases hl : lookupKV a.meters n with
    | none => simp [Agent.getMeter, hm, hl]
    | some t => simp [Agent.getMeter, hm, hl]

theorem collectorMeters_frame (a : Agent) :
    (a.collectorMeters).tracerProvider = a.tracerProvider
    ∧ (a.collectorMeters).meterProvider = a.meterProvider := by
  unfold Agent.collectorMeters
  constructor
  · rw [(getMeter_frame _ _).1, (getMeter_frame _ _).1, (getMeter_frame _ _).1,
      (getMeter_frame _ _).1]
  · rw [(getMeter_frame _ _).2.1, (getMeter_frame _ _).2.1, (getMeter_frame _ _).2.1,
      (getMeter_frame _ _).2.1]

theorem installTraceProvider_frame (env : InitEnv) (a : Agent) :
    ((a.installTraceProvider env).2).config = a.config
    ∧ ((a.installTraceProvider env).2).meterProvider = a.meterProvider := by
  unfold Agent.installTraceProvider
  split_ifs <;> simp

theorem installTraceProvider_some (env : InitEnv) (a : Agent)
    (hT : a.config.tracesEnabled = true) (hs : (a.installTraceProvider env).1 = none) :
    ((a.installTraceProvider env).2).tracerProvider.isSome = true := by
  unfold Agent.installTraceProvider at *
  split_ifs at hs ⊢
  all_goals simp_all

theorem installMetricProvider_frame (env : InitEnv) (a : Agent) :
    ((a.installMetricProvider env).2).config = a.config
    ∧ ((a.installMetricProvider env).2).tracerProvider = a.tracerProvider := by
  unfold Agent.installMetricProvider
  split_ifs <;> simp

theorem installMetricProvider_some (env : InitEnv) (a : Agent)
    (hM : a.config.metricsEnabled = true) (hs : (a.installMetricProvider env).1 = none) :
    ((a.installMetricProvider env).2).meterProvider.isSome = true := by
  unfold Agent.installMetricProvider at *
  split_ifs at hs ⊢
  all_goals simp_all

theorem installLogProvider_frame (env : InitEnv) (a : Agent) :
    ((a.installLogProvider env).2).config = a.config
    ∧ ((a.installLogProvider env).2).tracerProvider = a.tracerProvider
    ∧ ((a.installLogProvider env).2).meterProvider = a.meterProvider := by
  unfold Agent.installLogProvider
  split_ifs <;> simp

theorem startCollectors_frame (env : InitEnv) (a : Agent) :
    ((a.startCollectors env).2).tracerProvider = a.tracerProvider
    ∧ ((a.startCollectors env).2).meterProvider = a.meterProvider := by
  unfold Agent.startCollectors
  split_ifs <;> simp [collectorMeters_frame, (collectorMeters_frame a).1,
    (collectorMeters_frame a).2]

theorem collectorMeters_tracerProvider (a : Agent) :
    (a.collectorMeters).tracerProvider = a.tracerProvider :=
  (collectorMeters_frame a).1

theorem collectorMeters_meterProvider (a : Agent) :
    (a.collectorMeters).meterProvider = a.meterProvider :=
  (collectorMeters_frame a).2

theorem init_success_providers (env : InitEnv) (a : Agent)
    (hen : a.config.enabled = true) (hsucc : (a.init env).1 = none) :
    (a.config.tracesEnabled = true → ((a.init env).2).tracerProvider.isSome = true)
    ∧ (a.config.metricsEnabled = true → ((a.init env).2).meterProvider.isSome = true) := by
  simp only [Agent.init, hen, Bool.not_true] at hsucc ⊢
  split_ifs at hsucc ⊢ with h1 h2 h3 h4
  · exact h2.elim
  · cases ht1 : a.config.tracesEnabled <;>
    cases he1 : env.traceOk <;>
    cases ht2 : a.config.metricsEnabled <;>
    cases he2 : env.metricOk <;>
    cases ht3 : a.config.logsEnabled <;>
    cases he3 : env.logOk <;>
    cases he4 : env.collectorsOk <;>
    simp_all [Agent.installTraceProvider, Agent.installMetricProvider,
      Agent.installLogProvider, Agent.startCollectors,
      collectorMeters_tracerProvider, collectorMeters_meterProvider]

/-- C1: GetTracer and GetMeter return a handle (never the nil interface
value) in every state; when a provider is installed, a repeated call with
the same name returns exactly the result of the first call, handle and
state alike (the handle the first call stored in the cache); and a
successful Init on an enabled configuration installs the provider of each
enabled signal, so the memoization is in force afterwards. -/
theorem getTracer_getMeter_nonnil_cached (a : Agent) (name : String) :
    (∃ t, (a.getTracer name).1 = some t)
    ∧ (∃ m, (a.getMeter name).1 = some m)
    ∧ (a.tracerProvider.isSome = true →
        ((a.getTracer name).2).getTracer name = a.getTracer name)
    ∧ (a.meterProvider.isSome = true →
        ((a.getMeter name).2).getMeter name = a.getMeter name)
    ∧ (∀ env : InitEnv, a.config.enabled = true → a.config.tracesEnabled = true →
        (a.init env).1 = none → ((a.init env).2).tracerProvider.isSome = true)
    ∧ (∀ env : InitEnv, a.config.enabled = true → a.config.metricsEnabled = true →
        (a.init env).1 = none → ((a.init env).2).meterProvider.isSome = true) := by
  refine ⟨?_, ?_, ?_, ?_, ?_, ?_⟩
  · cases hp : a.tracerProvider with
    | none => exact ⟨noopTracer name, by simp [Agent.getTracer, hp]⟩
    | some p =>
      cases hl : lookupKV a.tracers name with
      | none => exact ⟨Tracer.sdk p.id a.nextId name, by simp [Agent.getTracer, hp, hl]⟩
      | some t => exact ⟨t, by simp [Agent.getTracer, hp, hl]⟩
  · cases hp : a.meterProvider with
    | none => exact ⟨noopMeter name, by simp [Agent.getMeter, hp]⟩
    | some p =>
      cases hl : lookupKV a.meters name with
      | none => exact ⟨Meter.sdk p.id a.nextId name, by simp [Agent.getMeter, hp, hl]⟩
      | some m => exact ⟨m, by simp [Agent.getMeter, hp, hl]⟩
  · intro hs
    rw [Option.isSome_iff_exists] at hs
    obtain ⟨p, hp⟩ := hs
    cases hl : lookupKV a.tracers name with
    | some t => simp [Agent.getTracer, hp, hl]
    | none => simp [Agent.getTracer, hp, hl, lookupKV_mapSet_self]
  · intro hs
    rw [Option.isSome_iff_exists] at hs
    obtain ⟨p, hp⟩ := hs
    cases hl : lookupKV a.meters name with
    | some m => simp [Agent.getMeter, hp, hl]
    | none => simp [Agent.getMeter, hp, hl, lookupKV_mapSet_self]
  · intro env hen ht hsucc
    exact (init_success_providers env a hen hsucc).1 ht
  · intro env hen hm hsucc
    exact (init_success_providers env a hen hsucc).2 hm

/-- Witness for C1: the concrete ready agent repeats the cached handle,
and a successful Init on the concrete enabled configuration installs the
providers. -/
theorem getTracer_getMeter_nonnil_cached_witness :
    readyAgent.tracerProvider.isSome = true
    ∧ ((readyAgent.getTracer "db").2).getTracer "db" = readyAgent.getTracer "db"
    ∧ ((newAgent sampleConfig).init envAllOk).1 = none
    ∧ (((newAgent sampleConfig).init envAllOk).2).tracerProvider.isSome = true :=
  ⟨rfl, (getTracer_getMeter_nonnil_cached readyAgent "db").2.2.1 rfl, by decide,
    (getTracer_getMeter_nonnil_cached (newAgent sampleConfig) "db").2.2.2.2.1 envAllOk rfl rfl
      (by decide)⟩

/-! Lemmas about the worst-status fold of the health tracker. -/

theorem status_eq_entryStatus (ht : ExporterHealth) (s : String) :
    ht.status s = ht.entryStatus (ht.count s) := rfl

theorem worse_sev_le (ht : ExporterHealth) (w : ExporterStatus) (e : String × Nat) :
    w.sev ≤ (ht.worse w e).sev ∧ (ht.entryStatus e.2).sev ≤ (ht.worse w e).sev := by
  simp only [ExporterHealth.worse]
  split_ifs with hgt
  · exact ⟨by omega, by omega⟩
  · exact ⟨le_refl _, by omega⟩

theorem foldl_worse_ge_init (ht : ExporterHealth) (l : List (String × Nat)) :
    ∀ w : ExporterStatus, w.sev ≤ (l.foldl ht.worse w).sev := by
  induction l with
  | nil => intro w; simp
  | cons e tl ih =>
    intro w
    calc w.sev ≤ (ht.worse w e).sev := (worse_sev_le ht w e).1
      _ ≤ (tl.foldl ht.worse (ht.worse w e)).sev := ih _

theorem foldl_worse_ge_entry (ht : ExporterHealth) {l : List (String × Nat)}
    {e : String × Nat} (he : e ∈ l) :
    ∀ w : ExporterStatus, (ht.entryStatus e.2).sev ≤ (l.foldl ht.worse w).sev := by
  induction l with
  | nil => simp at he
  | cons hd tl ih =>
    intro w
    rcases List.mem_cons.mp he with heq | hmem
    · subst heq
      calc (ht.entryStatus e.2).sev ≤ (ht.worse w e).sev := (worse_sev_le ht w e).2
        _ ≤ (tl.foldl ht.worse (ht.worse w e)).sev := foldl_worse_ge_init ht tl _
    · exact ih hmem _

theorem foldl_worse_attained (ht : ExporterHealth) (l : List (String × Nat)) :
    ∀ w : ExporterStatus,
      l.foldl ht.worse w = w ∨ ∃ e ∈ l, l.foldl ht.worse w = ht.entryStatus e.2 := by
  induction l with
  | nil => intro w; left; rfl
  | cons hd tl ih =>
    intro w
    rcases ih (ht.worse w hd) with heq | ⟨e, he, heq⟩
    · rw [List.foldl_cons, heq]
      simp only [ExporterHealth.worse]
      split_ifs
      · exact Or.inr ⟨hd, List.mem_cons_self _ _, rfl⟩
      · exact Or.inl rfl
    · exact Or.inr ⟨e, List.mem_cons_of_mem _ he, by rw [List.foldl_cons, heq]⟩

/-- C4: Status maps the consecutive-failure counter through the two
thresholds; RecordSuccess resets the counter to zero and the status to
healthy; a tracker with no recorded events is healthy; and OverallStatus
is the maximum severity over the tracked signals: it dominates every
signal status and is attained by some tracked signal unless it is the
healthy fold base. Hypotheses: the thresholds are positive and ordered
(the constructed defaults are 3 and 10), and the map model holds distinct
keys as a Go map does. -/
theorem exporterHealth_spec (ht : ExporterHealth) (signal : String)
    (hd : 0 < ht.degradedThreshold)
    (hdu : ht.degradedThreshold ≤ ht.unhealthyThreshold)
    (hnd : (ht.consecutiveFailures.map Prod.fst).Nodup) :
    (ht.count signal < ht.degradedThreshold → ht.status signal = .healthy)
    ∧ (ht.degradedThreshold ≤ ht.count signal → ht.count signal < ht.unhealthyThreshold →
        ht.status signal = .degraded)
    ∧ (ht.unhealthyThreshold ≤ ht.count signal → ht.status signal = .unhealthy)
    ∧ (ht.recordSuccess signal).count signal = 0
    ∧ (ht.recordSuccess signal).status signal = .healthy
    ∧ newExporterHealth.overallStatus = .healthy
    ∧ (ht.consecutiveFailures = [] → ht.overallStatus = .healthy)
    ∧ (∀ s : String, (ht.status s).sev ≤ ht.overallStatus.sev)
    ∧ (ht.overallStatus = .healthy
        ∨ ∃ e ∈ ht.consecutiveFailures, ht.status e.1 = ht.overallStatus) := by
  have hcount0 : (ht.recordSuccess signal).count signal = 0 := by
    simp [ExporterHealth.recordSuccess, ExporterHealth.count, lookupKV_mapSet_self]
  refine ⟨?_, ?_, ?_, hcount0, ?_, rfl, ?_, ?_, ?_⟩
  · intro hc
    rw [status_eq_entryStatus]
    unfold ExporterHealth.entryStatus
    rw [if_neg (by omega), if_neg (by omega)]
  · intro hc1 hc2
    rw [status_eq_entryStatus]
    unfold ExporterHealth.entryStatus
    rw [if_neg (by omega), if_pos (by omega)]
  · intro hc
    rw [status_eq_entryStatus]
    unfold ExporterHealth.entryStatus
    rw [if_pos (by omega)]
  · rw [status_eq_entryStatus, hcount0]
    show ht.entryStatus 0 = .healthy
    unfold ExporterHealth.entryStatus
    rw [if_neg (by omega), if_neg (by omega)]
  · intro he
    simp [ExporterHealth.overallStatus, he]
  · intro s
    cases hl : lookupKV ht.consecutiveFailures s with
    | none =>
      have hzero : ht.count s = 0 := by simp [ExporterHealth.count, hl]
      rw [status_eq_entryStatus, hzero]
      have h0 : ht.entryStatus 0 = .healthy := by
        unfold ExporterHealth.entryStatus
        rw [if_neg (by omega), if_neg (by omega)]
      rw [h0]
      exact Nat.zero_le _
    | some f =>
      have hmem := lookupKV_mem hl
      have hst : ht.status s = ht.entryStatus f := by
        rw [status_eq_entryStatus]
        simp [ExporterHealth.count, hl]
      rw [hst]
      exact foldl_worse_ge_entry ht hmem _
  · rcases foldl_worse_attained ht ht.consecutiveFailures ExporterStatus.healthy
      with heq | ⟨e, he, heq⟩
    · exact Or.inl heq
    · refine Or.inr ⟨e, he, ?_⟩
      have hcnt : ht.count e.1 = e.2 := by
        simp [ExporterHealth.count, lookupKV_of_mem_nodup hnd
          (show (e.1, e.2) ∈ ht.consecutiveFailures from by simpa using he)]
      rw [status_eq_entryStatus, hcnt, ← heq]
      rfl

/-- Witness for C4 at a concrete tracker with a degraded and an
unhealthy signal. -/
theorem exporterHealth_spec_witness :
    (⟨[("traces", 3), ("logs", 12)], 3, 10⟩ : ExporterHealth).status "traces"
        = ExporterStatus.degraded
    ∧ ((⟨[("traces", 3), ("logs", 12)], 3, 10⟩ : ExporterHealth).recordSuccess "logs").status
        "logs" = ExporterStatus.healthy :=
  ⟨(exporterHealth_spec ⟨[("traces", 3), ("logs", 12)], 3, 10⟩ "traces" (by decide) (by decide)
      (by decide)).2.1 (by decide) (by decide),
   (exporterHealth_spec ⟨[("traces", 3), ("logs", 12)], 3, 10⟩ "logs" (by decide) (by decide)
      (by decide)).2.2.2.2.1⟩

/-! Lemmas for ScrubHeaders: entries whose lowercased name differs from a
key never affect that key of the result map. -/

theorem scrubHeadersGo_untouched (s : HTTPScrubber) (allowedSet : List String)
    (hs : List (String × List String)) (key : String)
    (hnone : ∀ e ∈ hs, (strToLower e.1) ≠ key) :
    ∀ result : List (String × String),
      lookupKV (scrubHeadersGo s allowedSet hs result) key = lookupKV result key := by
  induction hs with
  | nil => intro result; rfl
  | cons hd tl ih =>
    intro result
    obtain ⟨name, values⟩ := hd
    have hne : (strToLower name) ≠ key := hnone (name, values) (List.mem_cons_self _ _)
    have htl : ∀ e ∈ tl, (strToLower e.1) ≠ key := fun e he => hnone e (List.mem_cons_of_mem _ he)
    simp only [scrubHeadersGo]
    by_cases hskip : (!allowedSet.isEmpty) = true ∧ (!allowedSet.contains (strToLower name)) = true
    · simp only [if_pos hskip]
      exact ih htl result
    · simp only [if_neg hskip]
      rw [ih htl _, lookupKV_mapSet_ne _ _ _ _ hne]

theorem scrubHeadersGo_spec (s : HTTPScrubber) (allowedSet : List String)
    (hs : List (String × List String)) (name : String) (values : List String)
    (hmem : (name, values) ∈ hs)
    (hnd : (hs.map (fun e => (strToLower e.1))).Nodup) :
    ∀ result : List (String × String),
      lookupKV result (strToLower name) = none →
      lookupKV (scrubHeadersGo s allowedSet hs result) (strToLower name) =
        if !allowedSet.isEmpty ∧ !allowedSet.contains (strToLower name) then none
        else some (if s.sensitiveHeaderSet.contains (strToLower name) then s.redactedValue
                   else String.intercalate ", " values) := by
  induction hs with
  | nil => simp at hmem
  | cons hd tl ih =>
    intro result hres
    obtain ⟨n1, v1⟩ := hd
    rcases List.mem_cons.mp hmem with heq | hmem1
    · injection heq with h1 h2
      subst h1
      subst h2
      have htl : ∀ e ∈ tl, (strToLower e.1) ≠ (strToLower name) := by
        intro e he hcontra
        have hmemmap : (strToLower name) ∈ tl.map (fun e => (strToLower e.1)) := by
          rw [← hcontra]
          exact List.mem_map.mpr ⟨e, he, rfl⟩
        exact (List.nodup_cons.mp (by simpa using hnd)).1 hmemmap
      simp only [scrubHeadersGo]
      by_cases hskip : (!allowedSet.isEmpty) = true ∧ (!allowedSet.contains (strToLower name)) = true
      · simp only [if_pos hskip]
        rw [scrubHeadersGo_untouched s allowedSet tl (strToLower name) htl result, hres]
      · simp only [if_neg hskip]
        rw [scrubHeadersGo_untouched s allowedSet tl (strToLower name) htl _, lookupKV_mapSet_self]
    · have hne : (strToLower n1) ≠ (strToLower name) := by
        intro hcontra
        have hmemmap : (strToLower n1) ∈ tl.map (fun e => (strToLower e.1)) := by
          rw [hcontra]
          exact List.mem_map.mpr ⟨(name, values), hmem1, rfl⟩
        exact (List.nodup_cons.mp (by simpa using hnd)).1 hmemmap
      have hndtl : (tl.map (fun e => (strToLower e.1))).Nodup :=
        (List.nodup_cons.mp (by simpa using hnd)).2
      simp only [scrubHeadersGo]
      by_cases hskip : (!allowedSet.isEmpty) = true ∧ (!allowedSet.contains (strToLower n1)) = true
      · simp only [if_pos hskip]
        exact ih hmem1 hndtl result hres
      · simp only [if_neg hskip]
        refine ih hmem1 hndtl _ ?_
        rw [lookupKV_mapSet_ne _ _ _ _ hne, hres]

/-- C6: ScrubHeaders drops a header outside a supplied non-empty
allow-list entirely; any kept header whose lowercased name is on the
configured sensitive-header list is mapped to the redaction literal, and
this holds for every scrub configuration, enabled or not (the function
never reads the enabled flag); a kept non-sensitive header carries its
values joined with a comma and space, so the join happens before the
redaction decision. The input header names are the keys of a Go map,
distinct after lowercasing. -/
theorem scrubHeaders_spec (s : HTTPScrubber) (headers : List (String × List String))
    (allowed : List String) (name : String) (values : List String)
    (hmem : (name, values) ∈ headers)
    (hnd : (headers.map (fun e => (strToLower e.1))).Nodup) :
    lookupKV (s.scrubHeaders headers allowed) (strToLower name) =
      if !allowed.isEmpty ∧ !((allowed.map strToLower).contains (strToLower name)) then none
      else some (if s.sensitiveHeaderSet.contains (strToLower name) then s.redactedValue
                 else String.intercalate ", " values) := by
  unfold HTTPScrubber.scrubHeaders
  rw [scrubHeadersGo_spec s (buildAllowedSet allowed) headers name values hmem hnd [] rfl]
  by_cases hempty : allowed.isEmpty
  · have h1 : allowed = [] := List.isEmpty_iff.mp hempty
    simp [buildAllowedSet, h1]
  · have h2 : buildAllowedSet allowed = allowed.map strToLower := by
      simp [buildAllowedSet, hempty]
    rw [h2]
    have h3 : (allowed.map strToLower).isEmpty = allowed.isEmpty := by
      cases allowed <;> simp
    rw [h3]

/-- C7: ScrubBody yields the empty string on an empty body; for a
nonempty body it is exactly the pattern-redaction phase applied to the
truncation phase, so truncation happens first; when scrubbing is
disabled the result is the bare truncation (so oversized bodies are
bounded even then); and an oversized body is cut to maxSize characters
plus the truncation marker. -/
theorem scrubBody_spec (s : HTTPScrubber) (body : String) (maxSize : Int) :
    s.scrubBody "" maxSize = ""
    ∧ (body ≠ "" → s.scrubBody body maxSize
        = s.applyBodyPatterns (truncateBody body maxSize))
    ∧ (s.scrubCfg.enabled = false → s.scrubBody body maxSize
        = if body = "" then "" else truncateBody body maxSize)
    ∧ (0 < maxSize → maxSize < (body.length : Int) →
        truncateBody body maxSize = body.take maxSize.toNat ++ "...[truncated]"
        ∧ (truncateBody body maxSize).length = maxSize.toNat + 14) := by
  refine ⟨by simp [HTTPScrubber.scrubBody], ?_, ?_, ?_⟩
  · intro hb
    simp [HTTPScrubber.scrubBody, hb]
  · intro hdis
    by_cases hb : body = ""
    · simp [HTTPScrubber.scrubBody, hb]
    · simp [HTTPScrubber.scrubBody, HTTPScrubber.applyBodyPatterns, hdis, hb]
  · intro h1 h2
    have htr : truncateBody body maxSize = body.take maxSize.toNat ++ "...[truncated]" := by
      unfold truncateBody
      rw [if_pos ⟨h1, h2⟩]
    refine ⟨htr, ?_⟩
    rw [htr]
    have hlen : (body.take maxSize.toNat).length = maxSize.toNat := by
      have hdata : (body.take maxSize.toNat).length = (body.data.take maxSize.toNat).length := by
        rw [String.take_eq]
        rfl
      rw [hdata, List.length_take]
      have : maxSize.toNat ≤ body.data.length := by
        have hb : (body.length : Int) = (body.data.length : Int) := rfl
        omega
      omega
    have happ : (body.take maxSize.toNat ++ "...[truncated]").length
        = (body.take maxSize.toNat).length + ("...[truncated]" : String).length := by
      simp [String.length_append]
    rw [happ, hlen]
    rfl

/-- Witness for C6: on the concrete scrubber, whose scrub configuration
is disabled, an Authorization header written in upper case is still
redacted, with no allow-list supplied. -/
theorem scrubHeaders_spec_witness :
    lookupKV (sampleHTTPScrubber.scrubHeaders
        [("AUTHORIZATION", ["Bearer abc"]), ("Accept", ["text/html"])] [])
      (strToLower "AUTHORIZATION")
      = if !([] : List String).isEmpty
            ∧ !((([] : List String).map strToLower).contains (strToLower "AUTHORIZATION"))
        then none
        else some (if sampleHTTPScrubber.sensitiveHeaderSet.contains (strToLower "AUTHORIZATION")
                   then sampleHTTPScrubber.redactedValue
                   else String.intercalate ", " ["Bearer abc"]) :=
  scrubHeaders_spec sampleHTTPScrubber
    [("AUTHORIZATION", ["Bearer abc"]), ("Accept", ["text/html"])] []
    "AUTHORIZATION" ["Bearer abc"] (by decide) (by decide)

/-- Witness for C7 on a concrete oversized body with scrubbing disabled. -/
theorem scrubBody_spec_witness :
    (sampleHTTPScrubber.scrubBody "abcdef" 3
        = if ("abcdef" : String) = "" then "" else truncateBody "abcdef" 3)
    ∧ truncateBody "abcdef" 3 = ("abcdef" : String).take (3 : Int).toNat ++ "...[truncated]"
    ∧ (truncateBody "abcdef" 3).length = (3 : Int).toNat + 14 :=
  ⟨(scrubBody_spec sampleHTTPScrubber "abcdef" 3).2.2.1 rfl,
   ((scrubBody_spec sampleHTTPScrubber "abcdef" 3).2.2.2 (by decide) (by decide)).1,
   ((scrubBody_spec sampleHTTPScrubber "abcdef" 3).2.2.2 (by decide) (by decide)).2⟩

/-- C5 is contradicted by the code at the negative sentinel: with
scrubbing enabled and a db-statement maximum of minus one, OnStart
leaves a db.statement attribute unchanged, because the truncation branch
runs only for a positive maximum and no sentinel branch exists in the
processor, where the claim (and the repository README, which documents
minus one as redact) requires full redaction. The last two conjuncts
record that the claimed positive-maximum truncation and zero-maximum
pass-through do hold on the code. -/
theorem dbStatement_negative_sentinel_unredacted :
    negOneProcessor.config.enabled = true
    ∧ negOneProcessor.config.dbStatementMaxLength = -1
    ∧ negOneProcessor.onStart [("db.statement", "SELECT ssn FROM users")]
        = [("db.statement", "SELECT ssn FROM users")]
    ∧ (newScrubProcessor { negOneScrubConfig with dbStatementMaxLength := 5 }
        (fun _ => none)).onStart [("db.statement", "SELECT ssn FROM users")]
        = [("db.statement", "SELEC...")]
    ∧ (newScrubProcessor { negOneScrubConfig with dbStatementMaxLength := 0 }
        (fun _ => none)).onStart [("db.statement", "SELECT ssn FROM users")]
        = [("db.statement", "SELECT ssn FROM users")] := by
  refine ⟨rfl, rfl, by decide, by decide, by decide⟩
